import Mathlib

/-!
# Verification of the box-validity filter of `object_detection`

Shallow embedding of `src/utils/boxes_validation_utils.py` (class `BoxFilter`
and its construction-time validation) together with the geometry primitive
`iou` that the repository imports from `utils.bounding_box` (a module that is
not part of the sources; it is modelled from the specification).

Modelling choices:
* numpy floating-point scalars are modelled as rationals (`ℚ`); all
  comparisons in the source are exact comparisons, so `ℚ` is a faithful
  idealisation;
* a label row (`labels[i, :]`) is a `List ℚ`; the `labels_format` dictionary
  becomes the record `LabelsFormat` of column indices, and a column access
  `labels[:, idx]` becomes `List.getD row idx 0` (all claims use in-range
  indices, where `getD` agrees with numpy indexing);
* a numpy boolean mask over the rows followed by `labels[requirements_met]`
  is the per-row predicate `rowPredicate` followed by `List.filter` — the
  mask of `BoxFilter.__call__` is computed row-wise, so this is exact;
* Python exceptions (`ValueError` at construction, `TypeError` from
  arithmetic on `None`, the `NameError` for the unassigned `d` on an
  unrecognised border mode, the `TypeError` from calling the empty
  `BoundGenerator` class) are modelled with `Except String`.
-/

/-- The `BoundGenerator` class of the source.  In the repository it is
`class BoundGenerator: pass` — an empty marker class with no behaviour;
instances are not callable. -/
structure BoundGenerator where
deriving DecidableEq

/-- The Python value passed as `overlap_bounds`: a 2-element list/tuple, a
`BoundGenerator` instance, or any other object (`invalid`), mirroring the
`isinstance(overlap_bounds, (list, tuple, BoundGenerator))` test of
`BoxFilter.__init__`. -/
inductive OverlapBounds where
  | pair (lower upper : ℚ)
  | generator (g : BoundGenerator)
  | invalid
deriving DecidableEq

/-- The `labels_format` dictionary: which column of a label row holds which
box field.  Default in the source: `{class_id: 0, xmin: 1, ymin: 2, xmax: 3,
ymax: 4}`. -/
structure LabelsFormat where
  class_id : ℕ
  xmin : ℕ
  ymin : ℕ
  xmax : ℕ
  ymax : ℕ
deriving DecidableEq

def defaultLabelsFormat : LabelsFormat := ⟨0, 1, 2, 3, 4⟩

/-- Column access `row[idx]`. -/
def getCol (row : List ℚ) (idx : ℕ) : ℚ := row.getD idx 0

/-- The configuration state stored by `BoxFilter.__init__` after its value
checks succeed (one field per `self.…` assignment). -/
structure BoxFilter where
  check_overlap : Bool
  check_min_area : Bool
  check_degenerate : Bool
  overlap_criterion : String
  overlap_bounds : OverlapBounds
  min_area : ℚ
  labels_format : LabelsFormat
  border_pixels : String
deriving DecidableEq

/-- `overlap_bounds` passes the `isinstance(..., (list, tuple, BoundGenerator))`
shape test. -/
def boundsShapeOk : OverlapBounds → Bool
  | .invalid => false
  | _ => true

/-- The second value check of `__init__`: a fixed pair with
`overlap_bounds[0] > overlap_bounds[1]`. -/
def boundsLowerGtUpper : OverlapBounds → Bool
  | .pair lower upper => decide (upper < lower)
  | _ => false

/-- `BoxFilter.__init__` (lines 23–80): the three `ValueError` checks, then
the field assignments. -/
def mkBoxFilter (check_overlap check_min_area check_degenerate : Bool)
    (overlap_criterion : String) (overlap_bounds : OverlapBounds)
    (min_area : ℚ) (labels_format : LabelsFormat) (border_pixels : String) :
    Except String BoxFilter :=
  if boundsShapeOk overlap_bounds = false then
    .error "ValueError: overlap_bounds must be either a 2-tuple of scales or a BoundGenerator object."
  else if boundsLowerGtUpper overlap_bounds = true then
    .error "ValueError: The lower bound must not be greater than the upper bound."
  else if ¬(overlap_criterion = "iou" ∨ overlap_criterion = "area" ∨
      overlap_criterion = "center_point") then
    .error "ValueError: overlap_criterion must be one of iou, area, or center_point."
  else
    .ok ⟨check_overlap, check_min_area, check_degenerate, overlap_criterion,
      overlap_bounds, min_area, labels_format, border_pixels⟩

/-! ## Geometry primitives

`utils.bounding_box.iou` is imported by the filter but the module is not in
the sources; `Rect`, `rectArea`, `rectIntersectionArea` and `iou` below are
modelled from the specification (§4.1 GeometryPrimitives). -/

/-- An axis-aligned rectangle in corner coordinates `(xmin, ymin, xmax, ymax)`. -/
structure Rect where
  xmin : ℚ
  ymin : ℚ
  xmax : ℚ
  ymax : ℚ
deriving DecidableEq

/-- Modelled from the spec: `area(r, border)` of the missing
`utils.bounding_box` module — `(xmax − xmin + d)·(ymax − ymin + d)` where `d`
is the border adjustment. -/
def rectArea (r : Rect) (d : ℚ) : ℚ :=
  (r.xmax - r.xmin + d) * (r.ymax - r.ymin + d)

/-- Modelled from the spec: `intersectionArea(a, b, border)` of the missing
`utils.bounding_box` module — clip one rectangle to the other's extent, then
the width/height of the clipped overlap with the border adjustment; 0 if
there is no overlap (never negative). -/
def rectIntersectionArea (a b : Rect) (d : ℚ) : ℚ :=
  let iw := min a.xmax b.xmax - max a.xmin b.xmin + d
  let ih := min a.ymax b.ymax - max a.ymin b.ymin + d
  if 0 < iw ∧ 0 < ih then iw * ih else 0

/-- Modelled from the spec: `iou` of the missing `utils.bounding_box` module
in `element-wise` mode applied to one candidate —
`intersection / (areaA + areaB − intersection)`, with a zero-area candidate
yielding 0 rather than a division fault. -/
def iou (a b : Rect) (d : ℚ) : ℚ :=
  if rectArea b d = 0 then 0
  else rectIntersectionArea a b d /
    (rectArea a d + rectArea b d - rectIntersectionArea a b d)

/-! ## The per-row checks of `BoxFilter.__call__` -/

/-- `np.clip(x, a_min, a_max)` on a scalar: `min(a_max, max(a_min, x))`. -/
def clipNp (lo hi x : ℚ) : ℚ := min hi (max lo x)

/-- Degenerate-box check (line 109):
`(labels[:, xmax] > labels[:, xmin]) * (labels[:, ymax] > labels[:, ymin])`. -/
def nonDegenerate (fmt : LabelsFormat) (row : List ℚ) : Bool :=
  decide (getCol row fmt.xmin < getCol row fmt.xmax) &&
  decide (getCol row fmt.ymin < getCol row fmt.ymax)

/-- Min-area check (line 113):
`(xmax − xmin)·(ymax − ymin) >= min_area` — no border adjustment. -/
def minAreaMet (fmt : LabelsFormat) (min_area : ℚ) (row : List ℚ) : Bool :=
  decide (min_area ≤
    (getCol row fmt.xmax - getCol row fmt.xmin) *
    (getCol row fmt.ymax - getCol row fmt.ymin))

/-- Box area of the `area` criterion (line 145):
`(xmax − xmin + d)·(ymax − ymin + d)`. -/
def boxAreas (fmt : LabelsFormat) (d : ℚ) (row : List ℚ) : ℚ :=
  (getCol row fmt.xmax - getCol row fmt.xmin + d) *
  (getCol row fmt.ymax - getCol row fmt.ymin + d)

/-- Intersection area of the `area` criterion (lines 147–151): clip the `y`
coordinates to `[0, image_height − 1]` and the `x` coordinates to
`[0, image_width − 1]`, then `(xmax' − xmin' + d)·(ymax' − ymin' + d)`. -/
def intersectionAreas (fmt : LabelsFormat) (d ih iw : ℚ) (row : List ℚ) : ℚ :=
  (clipNp 0 (iw - 1) (getCol row fmt.xmax) - clipNp 0 (iw - 1) (getCol row fmt.xmin) + d) *
  (clipNp 0 (ih - 1) (getCol row fmt.ymax) - clipNp 0 (ih - 1) (getCol row fmt.ymin) + d)

/-- The `area` overlap criterion (lines 152–160): the `lower == 0` branch uses
the strict `intersection_areas > 0`, otherwise `>= lower·box_areas`; the upper
mask is `<= upper·box_areas`. -/
def areaMask (fmt : LabelsFormat) (d lower upper ih iw : ℚ) (row : List ℚ) : Bool :=
  (if lower = 0 then decide (0 < intersectionAreas fmt d ih iw row)
   else decide (lower * boxAreas fmt d row ≤ intersectionAreas fmt d ih iw row)) &&
  decide (intersectionAreas fmt d ih iw row ≤ upper * boxAreas fmt d row)

/-- The `iou` overlap criterion (lines 124–132): IoU of the region rectangle
`(0, 0, image_width, image_height)` with the box, accepted when
`iou > lower` and `iou <= upper`. -/
def iouMask (fmt : LabelsFormat) (d lower upper ih iw : ℚ) (row : List ℚ) : Bool :=
  decide (lower < iou ⟨0, 0, iw, ih⟩
      ⟨getCol row fmt.xmin, getCol row fmt.ymin, getCol row fmt.xmax, getCol row fmt.ymax⟩ d) &&
  decide (iou ⟨0, 0, iw, ih⟩
      ⟨getCol row fmt.xmin, getCol row fmt.ymin, getCol row fmt.xmax, getCol row fmt.ymax⟩ d ≤ upper)

/-- The `center_point` overlap criterion (lines 161–166):
`cy = (ymin + ymax)/2`, `cx = (xmin + xmax)/2`, accepted when
`0 <= cy <= image_height − 1` and `0 <= cx <= image_width − 1`. -/
def centerMask (fmt : LabelsFormat) (ih iw : ℚ) (row : List ℚ) : Bool :=
  decide (0 ≤ (getCol row fmt.ymin + getCol row fmt.ymax) / 2) &&
  decide ((getCol row fmt.ymin + getCol row fmt.ymax) / 2 ≤ ih - 1) &&
  decide (0 ≤ (getCol row fmt.xmin + getCol row fmt.xmax) / 2) &&
  decide ((getCol row fmt.xmin + getCol row fmt.xmax) / 2 ≤ iw - 1)

/-! ## `BoxFilter.__call__` -/

/-- Resolution of `d` from `border_pixels` (lines 134–143).  The source's
`if/elif` chain assigns `d` only for the three recognised strings; any other
string leaves `d` unbound and line 145 raises `NameError`. -/
def borderD (border_pixels : String) : Except String ℚ :=
  if border_pixels = "half" then .ok 0
  else if border_pixels = "include" then .ok 1
  else if border_pixels = "exclude" then .ok (-1)
  else .error "NameError: name d is not defined"

/-- Resolution of the bounds (lines 117–121).  A `BoundGenerator` instance is
called — but the class of the source is empty, so the call raises
`TypeError`; unpacking any other object raises as well. -/
def resolveBounds : OverlapBounds → Except String (ℚ × ℚ)
  | .pair lower upper => .ok (lower, upper)
  | .generator _ => .error "TypeError: BoundGenerator object is not callable"
  | .invalid => .error "TypeError: cannot unpack overlap_bounds"

/-- An image dimension that is about to be used in arithmetic: `None` raises
`TypeError` (lines 126, 148–149, 165 all perform `dimension − 1` or feed the
dimension into the numeric `iou`). -/
def requireDim : Option ℚ → Except String ℚ
  | some v => .ok v
  | none => .error "TypeError: unsupported operand type for NoneType and int"

/-- The overlap block of `__call__` (lines 116–166): resolve the bounds, then
dispatch on `overlap_criterion`, producing the per-row overlap mask.  The
`elif` chain has no final `else`, so an unrecognised criterion leaves the
mask unchanged (`true`). -/
def overlapPredicate (f : BoxFilter) (image_height image_width : Option ℚ) :
    Except String (List ℚ → Bool) :=
  match resolveBounds f.overlap_bounds with
  | .error e => .error e
  | .ok (lower, upper) =>
    if f.overlap_criterion = "iou" then
      match requireDim image_height, requireDim image_width with
      | .ok ih, .ok iw =>
        match borderD f.border_pixels with
        | .ok d => .ok (fun row => iouMask f.labels_format d lower upper ih iw row)
        | .error e => .error e
      | .error e, _ => .error e
      | _, .error e => .error e
    else if f.overlap_criterion = "area" then
      match borderD f.border_pixels with
      | .ok d =>
        match requireDim image_height, requireDim image_width with
        | .ok ih, .ok iw =>
          .ok (fun row => areaMask f.labels_format d lower upper ih iw row)
        | .error e, _ => .error e
        | _, .error e => .error e
      | .error e => .error e
    else if f.overlap_criterion = "center_point" then
      match requireDim image_height, requireDim image_width with
      | .ok ih, .ok iw => .ok (fun row => centerMask f.labels_format ih iw row)
      | .error e, _ => .error e
      | _, .error e => .error e
    else .ok (fun _ => true)

/-- The acceptance mask of `__call__` as a per-row predicate:
`requirements_met` starts all-true and is multiplied by the degenerate,
min-area and overlap masks in turn (lines 106–166). -/
def rowPredicate (f : BoxFilter) (image_height image_width : Option ℚ) :
    Except String (List ℚ → Bool) :=
  match (if f.check_overlap then overlapPredicate f image_height image_width
         else .ok (fun _ => true)) with
  | .error e => .error e
  | .ok ov => .ok (fun row =>
      (if f.check_degenerate then nonDegenerate f.labels_format row else true) &&
      ((if f.check_min_area then minAreaMet f.labels_format f.min_area row else true) &&
       ov row))

/-- `BoxFilter.__call__` (lines 82–167): `labels = np.copy(labels)` (the input
is not mutated — inherent in the pure embedding), the mask is built, and
`labels[requirements_met]` returns the accepted rows in order. -/
def BoxFilter.apply (f : BoxFilter) (labels : List (List ℚ))
    (image_height image_width : Option ℚ) : Except String (List (List ℚ)) :=
  match rowPredicate f image_height image_width with
  | .error e => .error e
  | .ok p => .ok (labels.filter p)

/-! ## Structural lemmas about the embedding -/

theorem overlapPredicate_center (f : BoxFilter) (l u ih iw : ℚ)
    (hc : f.overlap_criterion = "center_point") (hb : f.overlap_bounds = .pair l u) :
    overlapPredicate f (some ih) (some iw) =
      .ok (fun row => centerMask f.labels_format ih iw row) := by
  simp only [overlapPredicate, hb, hc, resolveBounds, requireDim, String.reduceEq, reduceIte]

theorem overlapPredicate_area (f : BoxFilter) (l u d ih iw : ℚ)
    (hc : f.overlap_criterion = "area") (hb : f.overlap_bounds = .pair l u)
    (hd : borderD f.border_pixels = .ok d) :
    overlapPredicate f (some ih) (some iw) =
      .ok (fun row => areaMask f.labels_format d l u ih iw row) := by
  simp only [overlapPredicate, hb, hc, hd, resolveBounds, requireDim, String.reduceEq, reduceIte]

theorem overlapPredicate_iou (f : BoxFilter) (l u d ih iw : ℚ)
    (hc : f.overlap_criterion = "iou") (hb : f.overlap_bounds = .pair l u)
    (hd : borderD f.border_pixels = .ok d) :
    overlapPredicate f (some ih) (some iw) =
      .ok (fun row => iouMask f.labels_format d l u ih iw row) := by
  simp only [overlapPredicate, hb, hc, hd, resolveBounds, requireDim, String.reduceEq, reduceIte]

theorem rowPredicate_overlap_on (f : BoxFilter) (image_height image_width : Option ℚ)
    (ov : List ℚ → Bool) (hov : f.check_overlap = true)
    (h : overlapPredicate f image_height image_width = .ok ov) :
    rowPredicate f image_height image_width = .ok (fun row =>
      (if f.check_degenerate then nonDegenerate f.labels_format row else true) &&
      ((if f.check_min_area then minAreaMet f.labels_format f.min_area row else true) &&
       ov row)) := by
  simp only [rowPredicate, hov, if_true, h]

theorem rowPredicate_overlap_off (f : BoxFilter) (image_height image_width : Option ℚ)
    (hov : f.check_overlap = false) :
    rowPredicate f image_height image_width = .ok (fun row =>
      (if f.check_degenerate then nonDegenerate f.labels_format row else true) &&
      ((if f.check_min_area then minAreaMet f.labels_format f.min_area row else true) &&
       true)) := by
  simp only [rowPredicate, hov, Bool.false_eq_true, if_false]

theorem rowPredicate_error (f : BoxFilter) (image_height image_width : Option ℚ)
    (e : String) (hov : f.check_overlap = true)
    (h : overlapPredicate f image_height image_width = .error e) :
    rowPredicate f image_height image_width = .error e := by
  simp only [rowPredicate, hov, if_true, h]

theorem apply_of_rowPredicate (f : BoxFilter) (labels : List (List ℚ))
    (image_height image_width : Option ℚ) (p : List ℚ → Bool)
    (h : rowPredicate f image_height image_width = .ok p) :
    BoxFilter.apply f labels image_height image_width = .ok (labels.filter p) := by
  simp only [BoxFilter.apply, h]

theorem apply_error_of_rowPredicate (f : BoxFilter) (labels : List (List ℚ))
    (image_height image_width : Option ℚ) (e : String)
    (h : rowPredicate f image_height image_width = .error e) :
    BoxFilter.apply f labels image_height image_width = .error e := by
  simp only [BoxFilter.apply, h]

theorem apply_ok_inv (f : BoxFilter) (labels : List (List ℚ))
    (image_height image_width : Option ℚ) (out : List (List ℚ))
    (h : BoxFilter.apply f labels image_height image_width = .ok out) :
    ∃ p, rowPredicate f image_height image_width = .ok p ∧ out = labels.filter p := by
  unfold BoxFilter.apply at h
  rcases hrp : rowPredicate f image_height image_width with e | p <;> rw [hrp] at h
  · exact absurd h (by simp)
  · exact ⟨p, rfl, by injection h with h1; exact h1.symm⟩

theorem rowPredicate_ok_inv (f : BoxFilter) (image_height image_width : Option ℚ)
    (p : List ℚ → Bool) (h : rowPredicate f image_height image_width = .ok p) :
    ∃ ov, ((f.check_overlap = true ∧
        overlapPredicate f image_height image_width = .ok ov) ∨
      (f.check_overlap = false ∧ ov = fun _ => true)) ∧
      p = fun row =>
        (if f.check_degenerate then nonDegenerate f.labels_format row else true) &&
        ((if f.check_min_area then minAreaMet f.labels_format f.min_area row else true) &&
         ov row) := by
  unfold rowPredicate at h
  rcases hov : f.check_overlap with _ | _
  · rw [hov] at h
    simp only [Bool.false_eq_true, if_false] at h
    exact ⟨fun _ => true, Or.inr ⟨rfl, rfl⟩, by injection h with h1; exact h1.symm⟩
  · rw [hov] at h
    simp only [if_true] at h
    rcases hop : overlapPredicate f image_height image_width with e | ov <;> rw [hop] at h
    · exact absurd h (by simp)
    · exact ⟨ov, Or.inl ⟨rfl, rfl⟩, by injection h with h1; exact h1.symm⟩

/-! ## Arithmetic lemmas about clipping -/

theorem clipNp_mono (lo hi x y : ℚ) (h : x ≤ y) : clipNp lo hi x ≤ clipNp lo hi y := by
  unfold clipNp
  exact min_le_min le_rfl (max_le_max le_rfl h)

theorem clipNp_sub_le (lo hi x y : ℚ) (h : x ≤ y) :
    clipNp lo hi y - clipNp lo hi x ≤ y - x := by
  unfold clipNp
  rcases le_total x lo with h1 | h1 <;> rcases le_total y lo with h2 | h2 <;>
    rcases le_total x hi with h3 | h3 <;> rcases le_total y hi with h4 | h4 <;>
    simp [min_def, max_def] <;> split_ifs <;> linarith

theorem intersectionAreas_le_boxAreas_half (fmt : LabelsFormat) (ih iw : ℚ) (row : List ℚ)
    (hpos : 0 < intersectionAreas fmt 0 ih iw row) :
    intersectionAreas fmt 0 ih iw row ≤ boxAreas fmt 0 row := by
  unfold intersectionAreas at hpos
  unfold intersectionAreas boxAreas
  set a := getCol row fmt.xmin with ha
  set b := getCol row fmt.xmax with hb
  set c := getCol row fmt.ymin with hc
  set e := getCol row fmt.ymax with he
  set ca := clipNp 0 (iw - 1) a with hca
  set cb := clipNp 0 (iw - 1) b with hcb
  set cc := clipNp 0 (ih - 1) c with hcc
  set ce := clipNp 0 (ih - 1) e with hce
  rcases le_total a b with hab | hab <;> rcases le_total c e with hcd | hcd
  · have h1 : ca ≤ cb := clipNp_mono 0 (iw - 1) a b hab
    have h2 : cc ≤ ce := clipNp_mono 0 (ih - 1) c e hcd
    have h3 : cb - ca ≤ b - a := clipNp_sub_le 0 (iw - 1) a b hab
    have h4 : ce - cc ≤ e - c := clipNp_sub_le 0 (ih - 1) c e hcd
    nlinarith
  · have h1 : ca ≤ cb := clipNp_mono 0 (iw - 1) a b hab
    have h2 : ce ≤ cc := clipNp_mono 0 (ih - 1) e c hcd
    nlinarith
  · have h1 : cb ≤ ca := clipNp_mono 0 (iw - 1) b a hab
    have h2 : cc ≤ ce := clipNp_mono 0 (ih - 1) c e hcd
    nlinarith
  · have h1 : cb ≤ ca := clipNp_mono 0 (iw - 1) b a hab
    have h2 : ce ≤ cc := clipNp_mono 0 (ih - 1) e c hcd
    have h3 : ca - cb ≤ a - b := clipNp_sub_le 0 (iw - 1) b a hab
    have h4 : cc - ce ≤ c - e := clipNp_sub_le 0 (ih - 1) e c hcd
    nlinarith

theorem intersectionAreas_le_boxAreas_include (fmt : LabelsFormat) (ih iw : ℚ) (row : List ℚ)
    (hx : getCol row fmt.xmin ≤ getCol row fmt.xmax)
    (hy : getCol row fmt.ymin ≤ getCol row fmt.ymax) :
    intersectionAreas fmt 1 ih iw row ≤ boxAreas fmt 1 row := by
  unfold intersectionAreas boxAreas
  have h1 := clipNp_mono 0 (iw - 1) _ _ hx
  have h2 := clipNp_mono 0 (ih - 1) _ _ hy
  have h3 := clipNp_sub_le 0 (iw - 1) _ _ hx
  have h4 := clipNp_sub_le 0 (ih - 1) _ _ hy
  nlinarith

theorem overlapPredicate_resolveBounds_error (f : BoxFilter) (h w : Option ℚ) (e : String)
    (hb : resolveBounds f.overlap_bounds = .error e) :
    overlapPredicate f h w = .error e := by
  unfold overlapPredicate
  rw [hb]

theorem overlapPredicate_none_error (f : BoxFilter) (h w : Option ℚ)
    (hc : f.overlap_criterion = "iou" ∨ f.overlap_criterion = "area" ∨
      f.overlap_criterion = "center_point")
    (hdim : h = none ∨ w = none) :
    ∃ e, overlapPredicate f h w = .error e := by
  rcases hb : resolveBounds f.overlap_bounds with e | ⟨l, u⟩
  · exact ⟨e, overlapPredicate_resolveBounds_error f h w e hb⟩
  · unfold overlapPredicate
    rw [hb]
    rcases hc with hc | hc | hc <;> rw [hc] <;> simp only [String.reduceEq, reduceIte]
    · rcases hdim with hdim | hdim <;> subst hdim
      · rcases w with _ | wv <;> exact ⟨_, rfl⟩
      · rcases h with _ | hv <;> exact ⟨_, rfl⟩
    · rcases hd : borderD f.border_pixels with e | d
      · exact ⟨e, rfl⟩
      · rcases hdim with hdim | hdim <;> subst hdim
        · rcases w with _ | wv <;> exact ⟨_, rfl⟩
        · rcases h with _ | hv <;> exact ⟨_, rfl⟩
    · rcases hdim with hdim | hdim <;> subst hdim
      · rcases w with _ | wv <;> exact ⟨_, rfl⟩
      · rcases h with _ | hv <;> exact ⟨_, rfl⟩

/-! ## The claims -/

/-- Claim C8: for every input label table, apply returns a new table containing exactly
the rows whose acceptance mask is true, in their original relative order — the output is
a sublist (subsequence) of the input with row contents unchanged, and membership in the
output is membership in the input plus a true mask.  The input table is never mutated:
`BoxFilter.apply` is a pure function of the (copied) input, mirroring `np.copy` at
line 99 of the source. -/
theorem C8_filter_semantics :
    ∀ (f : BoxFilter) (labels : List (List ℚ)) (h w : Option ℚ) (out : List (List ℚ)),
      BoxFilter.apply f labels h w = .ok out →
      out.Sublist labels ∧
      ∃ p, rowPredicate f h w = .ok p ∧ out = labels.filter p ∧
        ∀ row, row ∈ out ↔ row ∈ labels ∧ p row = true := by
  intro f labels h w out happ
  obtain ⟨p, hp, hout⟩ := apply_ok_inv f labels h w out happ
  subst hout
  exact ⟨List.filter_sublist labels, p, hp, rfl, fun row => List.mem_filter⟩

/-- Claim C9: applying the filter is idempotent — for any fixed configuration and any
label table with fixed region dimensions, a second application to the output returns
the output unchanged. -/
theorem C9_idempotent :
    ∀ (f : BoxFilter) (labels : List (List ℚ)) (h w : Option ℚ) (out : List (List ℚ)),
      BoxFilter.apply f labels h w = .ok out →
      BoxFilter.apply f out h w = .ok out := by
  intro f labels h w out happ
  obtain ⟨p, hp, hout⟩ := apply_ok_inv f labels h w out happ
  subst hout
  rw [apply_of_rowPredicate f _ h w p hp, List.filter_filter]
  simp

/-- Claim C10: when checkOverlap is disabled, apply succeeds without region dimensions,
and its result is independent of the image_height and image_width arguments: two calls
on the same labels with different (or absent) region dimensions return the same
output. -/
theorem C10_dims_independent :
    ∀ (f : BoxFilter) (labels : List (List ℚ)) (h1 w1 h2 w2 : Option ℚ),
      f.check_overlap = false →
      (∃ out, BoxFilter.apply f labels none none = .ok out) ∧
      BoxFilter.apply f labels h1 w1 = BoxFilter.apply f labels h2 w2 := by
  intro f labels h1 w1 h2 w2 hov
  constructor
  · exact ⟨_, apply_of_rowPredicate f labels none none _ (rowPredicate_overlap_off f none none hov)⟩
  · rw [apply_of_rowPredicate f labels h1 w1 _ (rowPredicate_overlap_off f h1 w1 hov),
        apply_of_rowPredicate f labels h2 w2 _ (rowPredicate_overlap_off f h2 w2 hov)]

/-- Claim C4: with the overlap check enabled and criterion center_point, a box is
accepted by the overlap check iff its center `(cx, cy) = ((xmin+xmax)/2, (ymin+ymax)/2)`
satisfies `0 <= cy <= height-1` and `0 <= cx <= width-1`, both ends inclusive; for a
region of width 480 a box with center x-coordinate exactly 479 is accepted and one with
center x-coordinate 480 is rejected (second conjunct: centers `(479,150)` and
`(480,150)` in a 300×480 region). -/
theorem C4_center_point :
    (∀ (l u m ih iw : ℚ) (fmt : LabelsFormat) (bp : String) (labels : List (List ℚ)),
      BoxFilter.apply ⟨true, false, false, "center_point", .pair l u, m, fmt, bp⟩
          labels (some ih) (some iw) =
        .ok (labels.filter (fun row =>
          decide (0 ≤ (getCol row fmt.ymin + getCol row fmt.ymax) / 2) &&
          decide ((getCol row fmt.ymin + getCol row fmt.ymax) / 2 ≤ ih - 1) &&
          decide (0 ≤ (getCol row fmt.xmin + getCol row fmt.xmax) / 2) &&
          decide ((getCol row fmt.xmin + getCol row fmt.xmax) / 2 ≤ iw - 1)))) ∧
    BoxFilter.apply ⟨true, false, false, "center_point", .pair 0.3 1, 16, defaultLabelsFormat, "half"⟩
        [[0, 478, 140, 480, 160], [0, 479, 140, 481, 160]] (some 300) (some 480) =
      .ok [[0, 478, 140, 480, 160]] := by
  constructor
  · intro l u m ih iw fmt bp labels
    rw [apply_of_rowPredicate _ _ _ _ _ (rowPredicate_overlap_on _ _ _ _ rfl
      (overlapPredicate_center _ l u ih iw rfl rfl))]
    refine congrArg Except.ok (List.filter_congr fun row _ => ?_)
    simp only [centerMask, Bool.false_eq_true, if_false, Bool.true_and]
  · norm_num +decide [BoxFilter.apply, rowPredicate, overlapPredicate, resolveBounds,
      requireDim, centerMask, getCol, defaultLabelsFormat, List.filter]

/-- Claim C6: for every box and every BoxFilter with checkMinArea enabled, the box is
excluded whenever `(xmax-xmin)*(ymax-ymin) < minArea` — the area carries no border
adjustment (Half convention) whatever `border_pixels` is configured, which the first
conjunct captures by quantifying over every configuration; concretely, with
`minArea = 16` the box `(10,10,50,50)` of area 1600 is accepted and the box `(0,0,2,2)`
of area 4 is rejected (second conjunct, configured with the exclude border convention
to exhibit the independence). -/
theorem C6_min_area :
    (∀ (f : BoxFilter) (labels : List (List ℚ)) (h w : Option ℚ) (out : List (List ℚ))
        (row : List ℚ),
      f.check_min_area = true →
      BoxFilter.apply f labels h w = .ok out →
      (getCol row f.labels_format.xmax - getCol row f.labels_format.xmin) *
        (getCol row f.labels_format.ymax - getCol row f.labels_format.ymin) < f.min_area →
      row ∉ out) ∧
    BoxFilter.apply ⟨false, true, false, "center_point", .pair 0.3 1, 16, defaultLabelsFormat, "exclude"⟩
        [[0, 10, 10, 50, 50], [0, 0, 0, 2, 2]] none none = .ok [[0, 10, 10, 50, 50]] := by
  constructor
  · intro f labels h w out row hcm happ harea hmem
    obtain ⟨p, hp, hout⟩ := apply_ok_inv f labels h w out happ
    subst hout
    obtain ⟨ov, _, hpdef⟩ := rowPredicate_ok_inv f h w p hp
    rw [List.mem_filter, hpdef] at hmem
    obtain ⟨_, hprow⟩ := hmem
    simp only [hcm, if_true, minAreaMet, Bool.and_eq_true, decide_eq_true_eq] at hprow
    obtain ⟨_, h2, _⟩ := hprow
    linarith
  · norm_num +decide [BoxFilter.apply, rowPredicate, overlapPredicate, resolveBounds,
      requireDim, minAreaMet, getCol, defaultLabelsFormat, List.filter]

/-- Claim C7: every box with `xmax <= xmin` or `ymax <= ymin` is excluded from the
result whenever checkDegenerate is true (first conjunct), and is included when
checkDegenerate is false provided the remaining enabled checks accept it (second
conjunct: the min-area mask and the overlap mask of the configuration each hold for
the row). -/
theorem C7_degenerate :
    (∀ (f : BoxFilter) (labels : List (List ℚ)) (h w : Option ℚ) (out : List (List ℚ))
        (row : List ℚ),
      f.check_degenerate = true →
      BoxFilter.apply f labels h w = .ok out →
      (getCol row f.labels_format.xmax ≤ getCol row f.labels_format.xmin ∨
       getCol row f.labels_format.ymax ≤ getCol row f.labels_format.ymin) →
      row ∉ out) ∧
    (∀ (f : BoxFilter) (labels : List (List ℚ)) (h w : Option ℚ) (out : List (List ℚ))
        (ov : List ℚ → Bool) (row : List ℚ),
      f.check_degenerate = false →
      BoxFilter.apply f labels h w = .ok out →
      (f.check_overlap = true → overlapPredicate f h w = .ok ov) →
      (f.check_min_area = true → minAreaMet f.labels_format f.min_area row = true) →
      (f.check_overlap = true → ov row = true) →
      row ∈ labels → row ∈ out) := by
  constructor
  · intro f labels h w out row hcd happ hdeg hmem
    obtain ⟨p, hp, hout⟩ := apply_ok_inv f labels h w out happ
    subst hout
    obtain ⟨ov, _, hpdef⟩ := rowPredicate_ok_inv f h w p hp
    rw [List.mem_filter, hpdef] at hmem
    obtain ⟨_, hprow⟩ := hmem
    simp only [hcd, if_true, nonDegenerate, Bool.and_eq_true, decide_eq_true_eq] at hprow
    obtain ⟨⟨h1, h2⟩, _⟩ := hprow
    rcases hdeg with h3 | h3 <;> linarith
  · intro f labels h w out ov row hcd happ hop hmin hovrow hmem
    obtain ⟨p, hp, hout⟩ := apply_ok_inv f labels h w out happ
    subst hout
    obtain ⟨ov', hcase, hpdef⟩ := rowPredicate_ok_inv f h w p hp
    rw [List.mem_filter, hpdef]
    refine ⟨hmem, ?_⟩
    simp only [hcd, Bool.false_eq_true, if_false, Bool.true_and, Bool.and_eq_true]
    constructor
    · rcases hcm : f.check_min_area with _ | _
      · simp [Bool.false_eq_true]
      · simp only [if_true]
        exact hmin hcm
    · rcases hcase with ⟨hov, hop'⟩ | ⟨hov, hov'⟩
      · rw [hop hov] at hop'
        injection hop' with he
        rw [← he]
        exact hovrow hov
      · rw [hov']

/-- Claim C5: BoxFilter construction fails with a configuration error exactly when the
overlap window is neither a fixed pair nor a BoundGenerator, or the fixed pair has
`lower > upper`, or the overlap criterion is not one of center_point, area, iou; any
other configuration constructs successfully (both directions stated: the error cases
and the success cases are complementary). -/
theorem C5_construction :
    ∀ (co cm cd : Bool) (crit : String) (ob : OverlapBounds) (ma : ℚ)
      (fmt : LabelsFormat) (bp : String),
      ((∃ e, mkBoxFilter co cm cd crit ob ma fmt bp = .error e) ↔
        (ob = .invalid ∨ (∃ l u, ob = .pair l u ∧ u < l) ∨
         ¬(crit = "iou" ∨ crit = "area" ∨ crit = "center_point"))) ∧
      ((∃ cfg, mkBoxFilter co cm cd crit ob ma fmt bp = .ok cfg) ↔
        ¬(ob = .invalid ∨ (∃ l u, ob = .pair l u ∧ u < l) ∨
          ¬(crit = "iou" ∨ crit = "area" ∨ crit = "center_point"))) := by
  intro co cm cd crit ob ma fmt bp
  rcases ob with ⟨l, u⟩ | g | _
  · by_cases hlu : u < l
    · constructor <;>
        simp [mkBoxFilter, boundsShapeOk, boundsLowerGtUpper, hlu]
      exact Or.inl ⟨l, u, ⟨rfl, rfl⟩, hlu⟩
    · by_cases hcrit : crit = "iou" ∨ crit = "area" ∨ crit = "center_point" <;>
        constructor <;>
        simp [mkBoxFilter, boundsShapeOk, boundsLowerGtUpper, hlu, hcrit] <;>
        linarith
  · by_cases hcrit : crit = "iou" ∨ crit = "area" ∨ crit = "center_point" <;>
      constructor <;>
      simp [mkBoxFilter, boundsShapeOk, boundsLowerGtUpper, hcrit]
  · constructor <;> simp [mkBoxFilter, boundsShapeOk]

/-- Claim C2 (amended): for every BoxFilter with checkOverlap enabled and a recognised
overlap criterion, calling apply without providing regionHeight and regionWidth
(either one null) fails at apply time with an error rather than returning a result.
The original claim also demanded a failure for provided but non-positive dimensions;
the code accepts those and returns a normal result (see the counterexample). -/
theorem C2_missing_dims_error :
    ∀ (f : BoxFilter) (labels : List (List ℚ)) (h w : Option ℚ),
      f.check_overlap = true →
      (f.overlap_criterion = "iou" ∨ f.overlap_criterion = "area" ∨
       f.overlap_criterion = "center_point") →
      (h = none ∨ w = none) →
      ∃ e, BoxFilter.apply f labels h w = .error e := by
  intro f labels h w hov hc hdim
  obtain ⟨e, he⟩ := overlapPredicate_none_error f h w hc hdim
  exact ⟨e, apply_error_of_rowPredicate f labels h w e (rowPredicate_error f h w e hov he)⟩

/-- Counterexample to claim C2 as stated: region height 0 is provided but not positive
(`non-null positive` fails), yet apply raises no precondition failure — it returns a
normal, silently computed result (every center fails `cy <= height - 1 = -1`, so the
output is empty). -/
theorem C2_cex_nonpositive_dim :
    BoxFilter.apply ⟨true, false, false, "center_point", .pair 0.3 1, 16, defaultLabelsFormat, "half"⟩
        [[0, 10, 10, 20, 20]] (some 0) (some 480) = .ok [] := by
  rw [apply_of_rowPredicate _ _ _ _ _ (rowPredicate_overlap_on _ _ _ _ rfl
    (overlapPredicate_center _ 0.3 1 0 480 rfl rfl))]
  norm_num [centerMask, getCol, defaultLabelsFormat, List.filter]

/-- Witness for the amended claim C2 at a concrete input: a missing height makes apply
return an error. -/
theorem C2_witness :
    ∃ e, BoxFilter.apply ⟨true, false, false, "center_point", .pair 0.3 1, 16, defaultLabelsFormat, "half"⟩
        [[0, 10, 10, 20, 20]] none (some 480) = .error e :=
  C2_missing_dims_error _ [[0, 10, 10, 20, 20]] none (some 480) rfl
    (Or.inr (Or.inr rfl)) (Or.inl rfl)

/-- Claim C3: with the overlap check enabled and criterion iou, a box is accepted by
the overlap check iff its IoU with the region rectangle `(0,0,width,height)` satisfies
`iou > lower` and `iou <= upper` (first conjunct); a box whose IoU equals exactly
`upper` is accepted when the window is non-degenerate (`lower < upper`, second
conjunct), and a box whose IoU equals exactly `lower` is rejected (third conjunct).
The `iou` primitive is modelled from the spec because `utils.bounding_box` is not in
the sources. -/
theorem C3_iou :
    (∀ (l u m ih iw d : ℚ) (fmt : LabelsFormat) (bp : String) (labels : List (List ℚ)),
      borderD bp = .ok d →
      BoxFilter.apply ⟨true, false, false, "iou", .pair l u, m, fmt, bp⟩
          labels (some ih) (some iw) =
        .ok (labels.filter (fun row =>
          decide (l < iou ⟨0, 0, iw, ih⟩ ⟨getCol row fmt.xmin, getCol row fmt.ymin,
              getCol row fmt.xmax, getCol row fmt.ymax⟩ d) &&
          decide (iou ⟨0, 0, iw, ih⟩ ⟨getCol row fmt.xmin, getCol row fmt.ymin,
              getCol row fmt.xmax, getCol row fmt.ymax⟩ d ≤ u)))) ∧
    (∀ (l u m ih iw d : ℚ) (fmt : LabelsFormat) (bp : String) (labels : List (List ℚ))
        (out : List (List ℚ)) (row : List ℚ),
      borderD bp = .ok d →
      BoxFilter.apply ⟨true, false, false, "iou", .pair l u, m, fmt, bp⟩
          labels (some ih) (some iw) = .ok out →
      l < u →
      iou ⟨0, 0, iw, ih⟩ ⟨getCol row fmt.xmin, getCol row fmt.ymin,
          getCol row fmt.xmax, getCol row fmt.ymax⟩ d = u →
      row ∈ labels → row ∈ out) ∧
    (∀ (l u m ih iw d : ℚ) (fmt : LabelsFormat) (bp : String) (labels : List (List ℚ))
        (out : List (List ℚ)) (row : List ℚ),
      borderD bp = .ok d →
      BoxFilter.apply ⟨true, false, false, "iou", .pair l u, m, fmt, bp⟩
          labels (some ih) (some iw) = .ok out →
      iou ⟨0, 0, iw, ih⟩ ⟨getCol row fmt.xmin, getCol row fmt.ymin,
          getCol row fmt.xmax, getCol row fmt.ymax⟩ d = l →
      row ∉ out) := by
  refine ⟨?_, ?_, ?_⟩
  · intro l u m ih iw d fmt bp labels hd
    rw [apply_of_rowPredicate _ _ _ _ _ (rowPredicate_overlap_on _ _ _ _ rfl
      (overlapPredicate_iou _ l u d ih iw rfl rfl hd))]
    refine congrArg Except.ok (List.filter_congr fun row _ => ?_)
    simp only [iouMask, Bool.false_eq_true, if_false, Bool.true_and]
  · intro l u m ih iw d fmt bp labels out row hd happ hlu hv hmem
    rw [apply_of_rowPredicate _ _ _ _ _ (rowPredicate_overlap_on _ _ _ _ rfl
      (overlapPredicate_iou _ l u d ih iw rfl rfl hd))] at happ
    injection happ with he
    rw [← he, List.mem_filter]
    refine ⟨hmem, ?_⟩
    simp only [iouMask, Bool.false_eq_true, if_false, Bool.true_and, hv,
      Bool.and_eq_true, decide_eq_true_eq]
    exact ⟨hlu, le_refl u⟩
  · intro l u m ih iw d fmt bp labels out row hd happ hv hmem
    rw [apply_of_rowPredicate _ _ _ _ _ (rowPredicate_overlap_on _ _ _ _ rfl
      (overlapPredicate_iou _ l u d ih iw rfl rfl hd))] at happ
    injection happ with he
    rw [← he, List.mem_filter] at hmem
    obtain ⟨_, hrow⟩ := hmem
    simp only [iouMask, Bool.false_eq_true, if_false, Bool.true_and, hv,
      Bool.and_eq_true, decide_eq_true_eq] at hrow
    exact absurd hrow.1 (lt_irrefl l)

/-- Witness for claim C3 at a concrete input: a box coinciding with the 300×480 region
has IoU exactly `upper = 1` and is accepted under the window `(0.3, 1)`. -/
theorem C3_witness :
    borderD "half" = .ok 0 ∧ (0.3 : ℚ) < 1 ∧
    iou ⟨0, 0, 480, 300⟩ ⟨getCol [0, 0, 0, 480, 300] defaultLabelsFormat.xmin,
        getCol [0, 0, 0, 480, 300] defaultLabelsFormat.ymin,
        getCol [0, 0, 0, 480, 300] defaultLabelsFormat.xmax,
        getCol [0, 0, 0, 480, 300] defaultLabelsFormat.ymax⟩ 0 = 1 ∧
    [0, 0, 0, 480, 300] ∈ [[(0:ℚ), 0, 0, 480, 300]] := by
  have hv : iou ⟨0, 0, 480, 300⟩ ⟨getCol [0, 0, 0, 480, 300] defaultLabelsFormat.xmin,
      getCol [0, 0, 0, 480, 300] defaultLabelsFormat.ymin,
      getCol [0, 0, 0, 480, 300] defaultLabelsFormat.xmax,
      getCol [0, 0, 0, 480, 300] defaultLabelsFormat.ymax⟩ 0 = 1 := by
    norm_num [iou, rectArea, rectIntersectionArea, getCol, defaultLabelsFormat]
  have happ : BoxFilter.apply ⟨true, false, false, "iou", .pair 0.3 1, 16, defaultLabelsFormat, "half"⟩
      [[0, 0, 0, 480, 300]] (some 300) (some 480) = .ok [[0, 0, 0, 480, 300]] := by
    rw [apply_of_rowPredicate _ _ _ _ _ (rowPredicate_overlap_on _ _ _ _ rfl
      (overlapPredicate_iou ⟨true, false, false, "iou", .pair 0.3 1, 16, defaultLabelsFormat, "half"⟩
        0.3 1 0 300 480 rfl rfl rfl))]
    norm_num [iouMask, List.filter, hv]
  refine ⟨rfl, by norm_num, hv, ?_⟩
  exact C3_iou.2.1 0.3 1 16 300 480 0 defaultLabelsFormat "half"
    [[0, 0, 0, 480, 300]] [[0, 0, 0, 480, 300]] [0, 0, 0, 480, 300]
    rfl happ (by norm_num) hv (by simp)

/-- Claim C1 (amended): with the overlap check enabled and criterion area, a box is
accepted by the overlap check iff
`intersectionArea <= upper*boxArea` and (`lower == 0` ? `intersectionArea > 0` :
`intersectionArea >= lower*boxArea`), with `boxArea` and `intersectionArea` computed
with the border adjustment `d` after clipping to `[0,height-1]×[0,width-1]` (first
conjunct); with `lower = 0` a box with zero computed intersection is rejected under
every border convention (second conjunct); and a box with positive computed
intersection and `upper = 1` is accepted under the half convention (third conjunct) or
under the include convention for boxes with `xmin <= xmax` and `ymin <= ymax` (fourth
conjunct).  The original claim asserted the acceptance for every border convention;
under exclude it fails (see the counterexample). -/
theorem C1_area :
    (∀ (l u m ih iw d : ℚ) (fmt : LabelsFormat) (bp : String) (labels : List (List ℚ)),
      borderD bp = .ok d →
      BoxFilter.apply ⟨true, false, false, "area", .pair l u, m, fmt, bp⟩
          labels (some ih) (some iw) =
        .ok (labels.filter (fun row =>
          (if l = 0 then decide (0 < intersectionAreas fmt d ih iw row)
           else decide (l * boxAreas fmt d row ≤ intersectionAreas fmt d ih iw row)) &&
          decide (intersectionAreas fmt d ih iw row ≤ u * boxAreas fmt d row)))) ∧
    (∀ (u m ih iw d : ℚ) (fmt : LabelsFormat) (bp : String) (labels : List (List ℚ))
        (out : List (List ℚ)) (row : List ℚ),
      borderD bp = .ok d →
      BoxFilter.apply ⟨true, false, false, "area", .pair 0 u, m, fmt, bp⟩
          labels (some ih) (some iw) = .ok out →
      intersectionAreas fmt d ih iw row = 0 →
      row ∉ out) ∧
    (∀ (m ih iw : ℚ) (fmt : LabelsFormat) (labels : List (List ℚ))
        (out : List (List ℚ)) (row : List ℚ),
      BoxFilter.apply ⟨true, false, false, "area", .pair 0 1, m, fmt, "half"⟩
          labels (some ih) (some iw) = .ok out →
      0 < intersectionAreas fmt 0 ih iw row →
      row ∈ labels → row ∈ out) ∧
    (∀ (m ih iw : ℚ) (fmt : LabelsFormat) (labels : List (List ℚ))
        (out : List (List ℚ)) (row : List ℚ),
      BoxFilter.apply ⟨true, false, false, "area", .pair 0 1, m, fmt, "include"⟩
          labels (some ih) (some iw) = .ok out →
      getCol row fmt.xmin ≤ getCol row fmt.xmax →
      getCol row fmt.ymin ≤ getCol row fmt.ymax →
      0 < intersectionAreas fmt 1 ih iw row →
      row ∈ labels → row ∈ out) := by
  refine ⟨?_, ?_, ?_, ?_⟩
  · intro l u m ih iw d fmt bp labels hd
    rw [apply_of_rowPredicate _ _ _ _ _ (rowPredicate_overlap_on _ _ _ _ rfl
      (overlapPredicate_area _ l u d ih iw rfl rfl hd))]
    refine congrArg Except.ok (List.filter_congr fun row _ => ?_)
    simp only [areaMask, Bool.false_eq_true, if_false, Bool.true_and]
  · intro u m ih iw d fmt bp labels out row hd happ hzero hmem
    rw [apply_of_rowPredicate _ _ _ _ _ (rowPredicate_overlap_on _ _ _ _ rfl
      (overlapPredicate_area _ 0 u d ih iw rfl rfl hd))] at happ
    injection happ with he
    rw [← he, List.mem_filter] at hmem
    obtain ⟨_, hrow⟩ := hmem
    simp only [areaMask, Bool.false_eq_true, if_false, Bool.true_and, hzero, eq_self_iff_true, if_true,
      Bool.and_eq_true, decide_eq_true_eq] at hrow
    exact absurd hrow.1 (lt_irrefl 0)
  · intro m ih iw fmt labels out row happ hpos hmem
    rw [apply_of_rowPredicate _ _ _ _ _ (rowPredicate_overlap_on _ _ _ _ rfl
      (overlapPredicate_area ⟨true, false, false, "area", .pair 0 1, m, fmt, "half"⟩
        0 1 0 ih iw rfl rfl rfl))] at happ
    injection happ with he
    rw [← he, List.mem_filter]
    refine ⟨hmem, ?_⟩
    simp only [areaMask, Bool.false_eq_true, if_false, Bool.true_and, eq_self_iff_true,
      if_true, Bool.and_eq_true, decide_eq_true_eq]
    refine ⟨hpos, ?_⟩
    rw [one_mul]
    exact intersectionAreas_le_boxAreas_half fmt ih iw row hpos
  · intro m ih iw fmt labels out row happ hx hy hpos hmem
    rw [apply_of_rowPredicate _ _ _ _ _ (rowPredicate_overlap_on _ _ _ _ rfl
      (overlapPredicate_area ⟨true, false, false, "area", .pair 0 1, m, fmt, "include"⟩
        0 1 1 ih iw rfl rfl rfl))] at happ
    injection happ with he
    rw [← he, List.mem_filter]
    refine ⟨hmem, ?_⟩
    simp only [areaMask, Bool.false_eq_true, if_false, Bool.true_and, eq_self_iff_true,
      if_true, Bool.and_eq_true, decide_eq_true_eq]
    refine ⟨hpos, ?_⟩
    rw [one_mul]
    exact intersectionAreas_le_boxAreas_include fmt ih iw row hx hy

/-- Counterexample to claim C1 as stated: with the exclude border convention
(`d = -1`), bounds `(0, 1)` and region 300×480, the box `(500,500,501,510)` has
computed intersectionArea `(-1)·(-1) = 1 > 0` (both clipped widths collapse to 0) but
`boxArea = 0·9 = 0`, so `intersectionArea <= upper·boxArea` fails and the box is
rejected although the claim promises acceptance for any positive intersection with
`upper = 1`. -/
theorem C1_cex_positive_intersection_rejected :
    (0 : ℚ) < intersectionAreas defaultLabelsFormat (-1) 300 480 [0, 500, 500, 501, 510] ∧
    BoxFilter.apply ⟨true, false, false, "area", .pair 0 1, 16, defaultLabelsFormat, "exclude"⟩
        [[0, 500, 500, 501, 510]] (some 300) (some 480) = .ok [] := by
  constructor
  · norm_num [intersectionAreas, clipNp, getCol, defaultLabelsFormat]
  · rw [apply_of_rowPredicate _ _ _ _ _ (rowPredicate_overlap_on _ _ _ _ rfl
      (overlapPredicate_area ⟨true, false, false, "area", .pair 0 1, 16, defaultLabelsFormat, "exclude"⟩
        0 1 (-1) 300 480 rfl rfl rfl))]
    norm_num [areaMask, intersectionAreas, boxAreas, clipNp, getCol, defaultLabelsFormat, List.filter]

/-- Witness for the amended claim C1 at a concrete input: under the half convention a
box with positive intersection and window `(0, 1)` is accepted. -/
theorem C1_witness :
    (0 : ℚ) < intersectionAreas defaultLabelsFormat 0 300 480 [0, 10, 10, 50, 50] ∧
    [0, 10, 10, 50, 50] ∈ [[(0 : ℚ), 10, 10, 50, 50]] := by
  have hpos : (0 : ℚ) < intersectionAreas defaultLabelsFormat 0 300 480 [0, 10, 10, 50, 50] := by
    norm_num [intersectionAreas, clipNp, getCol, defaultLabelsFormat]
  have happ : BoxFilter.apply ⟨true, false, false, "area", .pair 0 1, 16, defaultLabelsFormat, "half"⟩
      [[0, 10, 10, 50, 50]] (some 300) (some 480) = .ok [[0, 10, 10, 50, 50]] := by
    rw [apply_of_rowPredicate _ _ _ _ _ (rowPredicate_overlap_on _ _ _ _ rfl
      (overlapPredicate_area ⟨true, false, false, "area", .pair 0 1, 16, defaultLabelsFormat, "half"⟩
        0 1 0 300 480 rfl rfl rfl))]
    norm_num [areaMask, intersectionAreas, boxAreas, clipNp, getCol, defaultLabelsFormat, List.filter]
  exact ⟨hpos, C1_area.2.2.1 16 300 480 defaultLabelsFormat
    [[0, 10, 10, 50, 50]] [[0, 10, 10, 50, 50]] [0, 10, 10, 50, 50] happ hpos (by simp)⟩

/-- Witness for claim C6 at a concrete input: the box `(0,0,2,2)` of area `4 < 16` is
excluded. -/
theorem C6_witness :
    (getCol [0, 0, 0, 2, 2] defaultLabelsFormat.xmax - getCol [0, 0, 0, 2, 2] defaultLabelsFormat.xmin) *
      (getCol [0, 0, 0, 2, 2] defaultLabelsFormat.ymax - getCol [0, 0, 0, 2, 2] defaultLabelsFormat.ymin)
      < (16 : ℚ) ∧
    [0, 0, 0, 2, 2] ∉ ([] : List (List ℚ)) := by
  have happ : BoxFilter.apply
      ⟨false, true, false, "center_point", .pair 0.3 1, 16, defaultLabelsFormat, "exclude"⟩
      [[0, 0, 0, 2, 2]] none none = .ok [] := by
    rw [apply_of_rowPredicate _ _ _ _ _ (rowPredicate_overlap_off _ none none rfl)]
    norm_num [minAreaMet, getCol, defaultLabelsFormat, List.filter]
  have harea : (getCol [0, 0, 0, 2, 2] defaultLabelsFormat.xmax -
      getCol [0, 0, 0, 2, 2] defaultLabelsFormat.xmin) *
      (getCol [0, 0, 0, 2, 2] defaultLabelsFormat.ymax -
      getCol [0, 0, 0, 2, 2] defaultLabelsFormat.ymin) < (16 : ℚ) := by
    norm_num [getCol, defaultLabelsFormat]
  exact ⟨harea, C6_min_area.1 _ _ none none [] _ rfl happ harea⟩

/-- Witness for claim C7 at a concrete input: the degenerate box `(20,20,20,40)` is
excluded when checkDegenerate is enabled. -/
theorem C7_witness :
    getCol [1, 20, 20, 20, 40] defaultLabelsFormat.xmax ≤
      getCol [1, 20, 20, 20, 40] defaultLabelsFormat.xmin ∧
    [1, 20, 20, 20, 40] ∉ ([] : List (List ℚ)) := by
  have happ : BoxFilter.apply
      ⟨false, false, true, "center_point", .pair 0.3 1, 16, defaultLabelsFormat, "half"⟩
      [[1, 20, 20, 20, 40]] none none = .ok [] := by
    rw [apply_of_rowPredicate _ _ _ _ _ (rowPredicate_overlap_off _ none none rfl)]
    norm_num [nonDegenerate, getCol, defaultLabelsFormat, List.filter]
  have hdeg : getCol [1, 20, 20, 20, 40] defaultLabelsFormat.xmax ≤
      getCol [1, 20, 20, 20, 40] defaultLabelsFormat.xmin := by
    norm_num [getCol, defaultLabelsFormat]
  exact ⟨hdeg, C7_degenerate.1 _ _ none none [] _ rfl happ (Or.inl hdeg)⟩

/-- Witness for claim C8 at a concrete input: a two-row table filtered by the min-area
check yields a sublist with exact-membership characterisation. -/
theorem C8_witness :
    List.Sublist [[(0 : ℚ), 10, 10, 50, 50]] [[(0 : ℚ), 10, 10, 50, 50], [0, 0, 0, 2, 2]] ∧
    ∃ p, rowPredicate
        ⟨false, true, false, "center_point", .pair 0.3 1, 16, defaultLabelsFormat, "half"⟩
        none none = .ok p ∧
      [[(0 : ℚ), 10, 10, 50, 50]] =
        List.filter p [[(0 : ℚ), 10, 10, 50, 50], [0, 0, 0, 2, 2]] ∧
      ∀ row, row ∈ [[(0 : ℚ), 10, 10, 50, 50]] ↔
        row ∈ [[(0 : ℚ), 10, 10, 50, 50], [0, 0, 0, 2, 2]] ∧ p row = true := by
  have happ : BoxFilter.apply
      ⟨false, true, false, "center_point", .pair 0.3 1, 16, defaultLabelsFormat, "half"⟩
      [[0, 10, 10, 50, 50], [0, 0, 0, 2, 2]] none none = .ok [[0, 10, 10, 50, 50]] := by
    rw [apply_of_rowPredicate _ _ _ _ _ (rowPredicate_overlap_off _ none none rfl)]
    norm_num [minAreaMet, getCol, defaultLabelsFormat, List.filter]
  exact C8_filter_semantics _ _ none none _ happ

/-- Witness for claim C9 at a concrete input: re-applying the filter to its own output
returns the output unchanged. -/
theorem C9_witness :
    BoxFilter.apply
      ⟨false, true, false, "center_point", .pair 0.3 1, 16, defaultLabelsFormat, "half"⟩
      [[0, 10, 10, 50, 50]] none none = .ok [[0, 10, 10, 50, 50]] := by
  have happ : BoxFilter.apply
      ⟨false, true, false, "center_point", .pair 0.3 1, 16, defaultLabelsFormat, "half"⟩
      [[0, 10, 10, 50, 50], [0, 0, 0, 2, 2]] none none = .ok [[0, 10, 10, 50, 50]] := by
    rw [apply_of_rowPredicate _ _ _ _ _ (rowPredicate_overlap_off _ none none rfl)]
    norm_num [minAreaMet, getCol, defaultLabelsFormat, List.filter]
  exact C9_idempotent _ _ none none _ happ

/-- Witness for claim C10 at a concrete input: with checkOverlap disabled, apply
succeeds without dimensions and ignores whatever dimensions are passed. -/
theorem C10_witness :
    (∃ out, BoxFilter.apply
      ⟨false, true, true, "center_point", .pair 0.3 1, 16, defaultLabelsFormat, "half"⟩
      [[0, 10, 10, 50, 50]] none none = .ok out) ∧
    BoxFilter.apply
      ⟨false, true, true, "center_point", .pair 0.3 1, 16, defaultLabelsFormat, "half"⟩
      [[0, 10, 10, 50, 50]] (some 300) (some 480) =
    BoxFilter.apply
      ⟨false, true, true, "center_point", .pair 0.3 1, 16, defaultLabelsFormat, "half"⟩
      [[0, 10, 10, 50, 50]] (some 5) none :=
  C10_dims_independent _ [[0, 10, 10, 50, 50]] (some 300) (some 480) (some 5) none rfl
